import Mathlib

/-!
Verification of the gazebo_ros_video plugin playback engine.

Shallow embedding of `src/gazebo_plugins/src/gazebo_ros_video.cpp`
(GazeboRosVideo / VideoVisual).  Pixel matrices (`cv::Mat`) are modelled as
structures carrying dimensions, channel count and a flat byte list; the
decoder (`cv::VideoCapture`) is modelled as a cursor over a list of frames
provided by an environment function `media : String → Option (List Mat)`
(`none` models a path that fails to open).  The plugin state gathers the
member fields of `GazeboRosVideo` that the playback machinery touches,
including the shared frame slot (`image_` / `new_image_available_`, guarded
by the image mutex in the source) and the rendered texture owned by
`VideoVisual`.

The body of one iteration of `GazeboRosVideo::VideoThread` (lines 498-592,
executed under the video mutex) is translated as `tick`.  Indexing into the
buffered-frame vector is modelled with `List` optional indexing, so `tick`
returns `none` exactly when the C++ would perform an out-of-bounds
`std::vector::operator[]` access (undefined behaviour).
-/

/-- Model of a `cv::Mat`: row and column counts, channel count and the pixel
bytes in row-major order. -/
structure Mat where
  rows : Nat
  cols : Nat
  channels : Nat
  data : List Nat
  deriving Repr, DecidableEq

/-- Model of `cv::Mat::empty()`: a matrix with no rows or no columns.  The
default-constructed `cv::Mat` has 0 rows and 0 columns. -/
def Mat.isEmpty (m : Mat) : Bool :=
  m.rows == 0 || m.cols == 0

/-- The default-constructed (empty) `cv::Mat`. -/
def Mat.emptyMat : Mat :=
  { rows := 0, cols := 0, channels := 0, data := [] }

/-- `cv::Mat::zeros(h, w, CV_8UC4)`: an all-zero 4-channel matrix. -/
def Mat.zeros (h w : Nat) : Mat :=
  { rows := h, cols := w, channels := 4, data := List.replicate (h * w * 4) 0 }

/-- Pixel-data half of `cv::cvtColor(.., CV_BGR2BGRA, 4)`: append an opaque
alpha byte after every 3-byte BGR pixel. -/
def bgrToBgra : List Nat → List Nat
  | b :: g :: r :: rest => b :: g :: r :: 255 :: bgrToBgra rest
  | rest => rest

/-- `cv::cvtColor(src, dst, CV_BGR2BGRA, 4)`: same dimensions, 4 channels. -/
def cvtColorBGR2BGRA (m : Mat) : Mat :=
  { rows := m.rows, cols := m.cols, channels := 4, data := bgrToBgra m.data }

/-- Pixel-data half of the external `cv::resize` collaborator, modelled as
nearest-neighbour resampling (the source delegates resampling to OpenCV; the
plugin only relies on the output dimensions). -/
def resampleNearest (m : Mat) (width height : Nat) : List Nat :=
  (List.range height).flatMap fun r =>
    (List.range width).flatMap fun c =>
      (List.range m.channels).map fun k =>
        m.data.getD ((r * m.rows / height * m.cols + c * m.cols / width) * m.channels + k) 0

/-- `cv::resize(src, dst, cv::Size(width, height))`: the result has `height`
rows and `width` columns. -/
def cvResize (m : Mat) (width height : Nat) : Mat :=
  { rows := height, cols := width, channels := m.channels,
    data := resampleNearest m width height }

/-- Model of a `cv::VideoCapture`: whether `open` succeeded, the decoded
frame sequence of the opened file, and the read position
(`CV_CAP_PROP_POS_FRAMES`). -/
structure VideoCapture where
  opened : Bool
  frames : List Mat
  pos : Nat
  deriving Repr, DecidableEq

/-- `cv::VideoCapture::open(path)` against a media environment mapping each
path to the decoded frames of the file, or `none` when the file cannot be
opened.  A successful open starts reading at frame 0. -/
def VideoCapture.openPath (media : String → Option (List Mat)) (path : String) :
    VideoCapture :=
  match media path with
  | some fs => { opened := true, frames := fs, pos := 0 }
  | none => { opened := false, frames := [], pos := 0 }

/-- `cv::VideoCapture::read(frame)`: returns the frame at the current
position and advances, or `none` at end of stream (or when not opened). -/
def VideoCapture.read (cap : VideoCapture) : Option Mat × VideoCapture :=
  if cap.opened then
    match cap.frames[cap.pos]? with
    | some f => (some f, { cap with pos := cap.pos + 1 })
    | none => (none, cap)
  else (none, cap)

/-- The member state of `GazeboRosVideo` used by the playback machinery,
together with the `VideoVisual` texture.  `image` and `new_image_available`
form the shared frame slot guarded by the image mutex; the remaining fields
are guarded by the video mutex.  `cap` is the `cv::VideoCapture` local to
`VideoThread`, persisted across loop iterations. -/
structure PluginState where
  video_path : String
  stop_video : Bool
  video_paused : Bool
  loop_video : Bool
  video_seek_position : ℚ
  buffer_all_frames_for_fast_seek : Bool
  current_buffered_frame : Nat
  video_frames : List Mat
  new_video_available : Bool
  cap : VideoCapture
  image : Option Mat
  new_image_available : Bool
  texture : Mat
  height : Nat
  width : Nat
  deriving Repr, DecidableEq

/-- `GazeboRosVideo::updateImage` (lines 458-473): allocate the shared image
on first use, store the all-zero display-sized frame when the argument is
empty, otherwise store the BGRA conversion of the argument; mark the slot
dirty.  No resizing happens here. -/
def updateImage (s : PluginState) (image : Mat) : PluginState :=
  let newMat :=
    if image.isEmpty then Mat.zeros s.height s.width
    else cvtColorBGR2BGRA image
  { s with image := some newMat, new_image_available := true }

/-- `GazeboRosVideo::clearImage` (lines 475-479): update with an empty
matrix, which stores the all-zero display-sized frame. -/
def clearImage (s : PluginState) : PluginState :=
  updateImage s Mat.emptyMat

/-- `GazeboRosVideo::processVideoPath` (lines 408-423). -/
def processVideoPath (s : PluginState) (str : String) : PluginState :=
  let s := { s with video_path := str }
  if str.isEmpty then
    clearImage { s with stop_video := true, new_video_available := false }
  else
    { s with stop_video := false, new_video_available := true }

/-- `GazeboRosVideo::processVideoSeek` (lines 425-429): the value is stored
unconditionally; range checking happens only in `VideoThread`. -/
def processVideoSeek (s : PluginState) (value : ℚ) : PluginState :=
  { s with video_seek_position := value }

/-- `GazeboRosVideo::processVideoPause` (lines 431-436). -/
def processVideoPause (s : PluginState) (value : Bool) : PluginState :=
  if s.stop_video then s else { s with video_paused := value }

/-- Model of the external `cv_bridge::toCvCopy(msg, "bgra8")` conversion:
4-channel input is kept, other input is BGRA-converted. -/
def toCvCopyBGRA (m : Mat) : Mat :=
  if m.channels == 4 then m else cvtColorBGR2BGRA m

/-- `GazeboRosVideo::processImage` (lines 383-392): store the pushed raw
image (converted to BGRA) in the shared slot, mark it dirty, and request the
video to stop. -/
def processImage (s : PluginState) (msg : Mat) : PluginState :=
  { s with image := some (toCvCopyBGRA msg), new_image_available := true,
           stop_video := true }

/-- `GazeboRosVideo::processImagePath` (lines 394-406), with the external
`cv::imread` modelled by an environment `images` (imread yields an empty
matrix on failure, which `updateImage` turns into the zero frame). -/
def processImagePath (images : String → Mat) (s : PluginState) (str : String) :
    PluginState :=
  let s := if str.isEmpty then clearImage s else updateImage s (images str)
  { s with stop_video := true }

/-- `VideoVisual::render` (lines 108-133): resize when the dimensions differ
from the configured texture size, then copy `height * width * 4` bytes into
the texture. -/
def renderTexture (height width : Nat) (m : Mat) : Mat :=
  let src := if m.rows ≠ height ∨ m.cols ≠ width then cvResize m width height else m
  { rows := height, cols := width, channels := 4,
    data := src.data.take (height * width * 4) }

/-- `GazeboRosVideo::UpdateChild` (lines 373-381), the render-sampling step:
under the image mutex, render the shared image when the slot is dirty, then
clear the dirty flag.  Returns `none` when the C++ would dereference a null
`image_` (dirty slot with no image ever stored). -/
def sample (s : PluginState) : Option PluginState :=
  if s.new_image_available then
    match s.image with
    | some m =>
        some { s with texture := renderTexture s.height s.width m,
                      new_image_available := false }
    | none => none
  else
    some { s with new_image_available := false }

/-- The pre-buffering loop of `VideoThread` (lines 520-531): read every
frame, skip empty ones, resize each kept frame to the configured display
size. -/
def preloadFrames (width height : Nat) : List Mat → List Mat
  | [] => []
  | f :: rest =>
    if f.isEmpty then preloadFrames width height rest
    else cvResize f width height :: preloadFrames width height rest

/-- The buffering step of the source-(re)opening block (lines 515-533): in
buffering mode, reset the buffer and cursor and, when the capture opened,
decode every frame of the source into the buffer (leaving the capture at end
of stream).  `cap` is the freshly opened capture, already stored in `s`. -/
def tickSourceBuffer (cap : VideoCapture) (s : PluginState) : PluginState :=
  if s.buffer_all_frames_for_fast_seek then
    if cap.opened then
      { s with video_frames := preloadFrames s.width s.height cap.frames,
               current_buffered_frame := 0,
               cap := { cap with pos := cap.frames.length } }
    else { s with video_frames := [], current_buffered_frame := 0 }
  else s

/-- The source-(re)opening block of `VideoThread` (lines 501-534), executed
when a new video is available and the path is non-empty: clear the display,
open the capture, drop the new-video flag, and in buffering mode decode the
whole source into `video_frames`.  The frame-rate adjustment (lines 507-513)
only affects loop pacing and is not part of the state. -/
def tickSourceOpen (media : String → Option (List Mat)) (s : PluginState) :
    PluginState :=
  tickSourceBuffer (VideoCapture.openPath media s.video_path)
    { clearImage s with cap := VideoCapture.openPath media s.video_path,
                        new_video_available := false }

/-- The frame-delivery step of the buffered branch (lines 558-561): when a
seek was performed or playback is not paused, the frame at the cursor is
read with `operator[]` and the cursor is post-incremented; the result is
`none` when that read is out of bounds (the cursor is not a valid index). -/
def tickBufferedRead (s : PluginState) (seek_performed : Bool) :
    Option PluginState :=
  if seek_performed || !s.video_paused then
    match s.video_frames[s.current_buffered_frame]? with
    | some f =>
        some (updateImage
          { s with current_buffered_frame := s.current_buffered_frame + 1 } f)
    | none => none
  else some s

/-- The overrun check of the buffered branch (lines 547-556): a cursor past
the end resets to 0 and, when not looping, stops playback, clears the
display and clears the buffer; then the delivery step runs. -/
def tickBufferedStep (s : PluginState) (seek_performed : Bool) :
    Option PluginState :=
  tickBufferedRead
    (if s.video_frames.length ≤ s.current_buffered_frame then
      (if s.loop_video then { s with current_buffered_frame := 0 }
       else clearImage { s with current_buffered_frame := 0, stop_video := true,
                                video_frames := [] })
     else s)
    seek_performed

/-- The buffered-playback branch of `VideoThread` (lines 538-562), entered
when buffering is enabled and the buffer is non-empty.  A pending seek in
[0,1] sets the cursor to `(size - 1) * fraction` truncated toward zero (the
C++ conversion of the nonnegative double product to an unsigned integer,
which is its floor) and clears the pending seek. -/
def tickBuffered (s : PluginState) : Option PluginState :=
  if 0 ≤ s.video_seek_position ∧ s.video_seek_position ≤ 1 then
    tickBufferedStep
      { s with
          current_buffered_frame :=
            (⌊((s.video_frames.length - 1 : ℕ) : ℚ) * s.video_seek_position⌋).toNat,
          video_seek_position := -1 }
      true
  else
    tickBufferedStep s false

/-- The end-of-stream handling of the streaming branch (lines 580-588):
when looping, reopen the source from the beginning; otherwise stop playback
and clear the display. -/
def tickStreamFallback (media : String → Option (List Mat)) (s : PluginState) :
    PluginState :=
  if s.loop_video then
    { s with cap := VideoCapture.openPath media s.video_path }
  else
    clearImage { s with stop_video := true }

/-- Delivery of the outcome of one streaming read (lines 575-588): a
successful non-empty read is stored through `updateImage`; a failed read or
an empty frame is end of stream. -/
def tickStreamDeliver (media : String → Option (List Mat)) (s : PluginState) :
    Option Mat → PluginState
  | some f => if f.isEmpty then tickStreamFallback media s else updateImage s f
  | none => tickStreamFallback media s

/-- The read step of the streaming branch (lines 573-589): when a seek was
performed or playback is not paused, read one frame (advancing the capture)
and deliver the outcome. -/
def tickStreamRead (media : String → Option (List Mat)) (s : PluginState)
    (seek_performed : Bool) : PluginState :=
  if seek_performed || !s.video_paused then
    tickStreamDeliver media { s with cap := s.cap.read.2 } s.cap.read.1
  else s

/-- The streaming-playback branch of `VideoThread` (lines 563-590), entered
when the capture is open.  A pending seek in [0,1] moves the read position
to `frame_count * fraction` truncated toward zero (the C++ conversion of the
nonnegative double product, which is its floor) and clears the pending
seek. -/
def tickStream (media : String → Option (List Mat)) (s : PluginState) :
    PluginState :=
  if 0 ≤ s.video_seek_position ∧ s.video_seek_position ≤ 1 then
    tickStreamRead media
      { s with
          cap := { s.cap with
            pos := (⌊(s.cap.frames.length : ℚ) * s.video_seek_position⌋).toNat },
          video_seek_position := -1 }
      true
  else
    tickStreamRead media s false

/-- The playback step after the optional source (re)open (lines 536-590):
the buffered branch when buffering is on and the buffer is non-empty, else
the streaming branch when the capture is open, else nothing. -/
def tickPlay (media : String → Option (List Mat)) (s : PluginState) :
    Option PluginState :=
  if s.buffer_all_frames_for_fast_seek && !s.video_frames.isEmpty then
    tickBuffered s
  else if s.cap.opened then
    some (tickStream media s)
  else some s

/-- One iteration of the `VideoThread` loop body (lines 498-592), executed
under the video mutex.  When playback is stopped the whole body is skipped.
Returns `none` exactly when the iteration performs an out-of-bounds buffer
access. -/
def tick (media : String → Option (List Mat)) (s : PluginState) :
    Option PluginState :=
  if s.stop_video then some s
  else
    tickPlay media
      (if s.new_video_available && !s.video_path.isEmpty then
        tickSourceOpen media s
      else s)

/-- Commands that can reach the plugin state: a playback-loop iteration, a
render sample, and the five message handlers. -/
inductive Cmd where
  | tick
  | sample
  | seek (f : ℚ)
  | pause (b : Bool)
  | videoPath (p : String)
  | imagePath (p : String)
  | imagePush (m : Mat)
  deriving Repr

/-- One command applied to the state. -/
def stepCmd (media : String → Option (List Mat)) (images : String → Mat) :
    Cmd → PluginState → Option PluginState
  | Cmd.tick, s => tick media s
  | Cmd.sample, s => sample s
  | Cmd.seek f, s => some (processVideoSeek s f)
  | Cmd.pause b, s => some (processVideoPause s b)
  | Cmd.videoPath p, s => some (processVideoPath s p)
  | Cmd.imagePath p, s => some (processImagePath images s p)
  | Cmd.imagePush m, s => some (processImage s m)

/-- A sequence of commands applied to the state. -/
def runCmds (media : String → Option (List Mat)) (images : String → Mat) :
    List Cmd → PluginState → Option PluginState
  | [], s => some s
  | c :: rest, s =>
    match stepCmd media images c s with
    | some s' => runCmds media images rest s'
    | none => none

/-- Commands that never set a non-empty video path (the only mutation that
drops the stop flag). -/
def keepsVideoStopped : Cmd → Bool
  | Cmd.videoPath p => p == ""
  | _ => true

/-- Commands that are playback ticks or render samples. -/
def isTickOrSample : Cmd → Bool
  | Cmd.tick => true
  | Cmd.sample => true
  | _ => false

/-- A media environment with no openable file. -/
def mediaNone : String → Option (List Mat) := fun _ => none

/-- An image-load environment where every read fails (empty matrix). -/
def imagesNone : String → Mat := fun _ => Mat.emptyMat

/-! ## Concrete fixtures -/

/-- A 1x1 3-channel (BGR) test frame. -/
def testMat0 : Mat := { rows := 1, cols := 1, channels := 3, data := [10, 20, 30] }

/-- A second distinct 1x1 test frame. -/
def testMat1 : Mat := { rows := 1, cols := 1, channels := 3, data := [11, 21, 31] }

/-- A third distinct 1x1 test frame. -/
def testMat2 : Mat := { rows := 1, cols := 1, channels := 3, data := [12, 22, 32] }

/-- A fourth distinct 1x1 test frame. -/
def testMat3 : Mat := { rows := 1, cols := 1, channels := 3, data := [13, 23, 33] }

/-- A 4x4 3-channel frame, larger than a 2x2 display configuration. -/
def testMatLarge : Mat :=
  { rows := 4, cols := 4, channels := 3, data := List.replicate 48 7 }

/-- A media environment with a single 4-frame file at path "v". -/
def mediaFour : String → Option (List Mat) := fun p =>
  if p == "v" then some [testMat0, testMat1, testMat2, testMat3] else none

/-- Buffering mode, loop disabled, not paused: the buffer holds 3 frames and
the cursor has just run past the last one (the state reached on the tick
after the final frame of the spec scenario). -/
def overrunState : PluginState :=
  { video_path := "v", stop_video := false, video_paused := false,
    loop_video := false, video_seek_position := -1,
    buffer_all_frames_for_fast_seek := true, current_buffered_frame := 3,
    video_frames := [testMat0, testMat1, testMat2], new_video_available := false,
    cap := { opened := true, frames := [testMat0, testMat1, testMat2], pos := 3 },
    image := some (cvtColorBGR2BGRA testMat2), new_image_available := false,
    texture := cvtColorBGR2BGRA testMat2, height := 1, width := 1 }

/-- Streaming mode at frame 0 of a 4-frame source with a valid pending seek
fraction 1/2 already stored. -/
def pendingSeekState : PluginState :=
  { video_path := "v", stop_video := false, video_paused := false,
    loop_video := true, video_seek_position := mkRat 1 2,
    buffer_all_frames_for_fast_seek := false, current_buffered_frame := 0,
    video_frames := [], new_video_available := false,
    cap := { opened := true, frames := [testMat0, testMat1, testMat2, testMat3],
             pos := 0 },
    image := none, new_image_available := false,
    texture := Mat.zeros 1 1, height := 1, width := 1 }

/-- Streaming mode on a 2x2 display about to read a 4x4 source frame. -/
def mismatchState : PluginState :=
  { video_path := "big", stop_video := false, video_paused := false,
    loop_video := true, video_seek_position := -1,
    buffer_all_frames_for_fast_seek := false, current_buffered_frame := 0,
    video_frames := [], new_video_available := false,
    cap := { opened := true, frames := [testMatLarge], pos := 0 },
    image := none, new_image_available := false,
    texture := Mat.zeros 2 2, height := 2, width := 2 }

/-- Buffering mode over a 4-frame buffer with a pending seek fraction 1/2. -/
def seekHalfState : PluginState :=
  { video_path := "v", stop_video := false, video_paused := false,
    loop_video := true, video_seek_position := mkRat 1 2,
    buffer_all_frames_for_fast_seek := true, current_buffered_frame := 0,
    video_frames := [testMat0, testMat1, testMat2, testMat3],
    new_video_available := false,
    cap := { opened := true, frames := [testMat0, testMat1, testMat2, testMat3],
             pos := 4 },
    image := none, new_image_available := false,
    texture := Mat.zeros 1 1, height := 1, width := 1 }

/-- Paused in buffering mode with loop disabled, cursor just past the single
buffered frame, display showing that frame. -/
def pausedOverrunState : PluginState :=
  { video_path := "v", stop_video := false, video_paused := true,
    loop_video := false, video_seek_position := -1,
    buffer_all_frames_for_fast_seek := true, current_buffered_frame := 1,
    video_frames := [testMat0], new_video_available := false,
    cap := { opened := true, frames := [testMat0], pos := 1 },
    image := some (cvtColorBGR2BGRA testMat0), new_image_available := false,
    texture := { rows := 1, cols := 1, channels := 4, data := [10, 20, 30, 255] },
    height := 1, width := 1 }

/-! ## Lock-order model for the raw-image push handler -/

/-- The two mutex domains of the plugin (`m_image_` and `m_video_`). -/
inductive LockKind where
  | image
  | video
  deriving DecidableEq, Repr

/-- A mutex acquisition or release. -/
inductive LockEvent where
  | acq (k : LockKind)
  | rel (k : LockKind)
  deriving DecidableEq, Repr

/-- The mutex events of `GazeboRosVideo::processImage` (lines 383-392): the
scoped lock on the image mutex covers the whole function body, the scoped
lock on the video mutex is constructed while the image lock is still held,
and both are destroyed at the end of the body in reverse construction
order. -/
def processImageLockEvents : List LockEvent :=
  [LockEvent.acq LockKind.image, LockEvent.acq LockKind.video,
   LockEvent.rel LockKind.video, LockEvent.rel LockKind.image]

/-- The mutex events of a frame-producing `VideoThread` iteration (lines
498-592): the video mutex is held for the whole body and `updateImage` /
`clearImage` (lines 458-479) take the image mutex inside it. -/
def videoThreadLockEvents : List LockEvent :=
  [LockEvent.acq LockKind.video, LockEvent.acq LockKind.image,
   LockEvent.rel LockKind.image, LockEvent.rel LockKind.video]

/-- The set of locks held after one event. -/
def heldAfter (held : List LockKind) : LockEvent → List LockKind
  | LockEvent.acq k => k :: held
  | LockEvent.rel k => held.erase k

/-- Whether, at some point of the event sequence, the image and the video
lock are held simultaneously. -/
def existsBothHeld (held : List LockKind) : List LockEvent → Bool
  | [] => false
  | e :: rest =>
    let held' := heldAfter held e
    (held'.contains LockKind.image && held'.contains LockKind.video)
      || existsBothHeld held' rest

/-- The first lock acquired in an event sequence. -/
def firstAcquired : List LockEvent → Option LockKind
  | [] => none
  | LockEvent.acq k :: _ => some k
  | LockEvent.rel _ :: rest => firstAcquired rest

/-! ## C1: buffered playback reads the cleared buffer on overrun -/

/-- C1.  In buffering mode with looping disabled, the tick on which the
cursor has run past the end of a non-empty buffer stops playback and clears
the buffer, but then still evaluates `video_frames_[current_buffered_frame_++]`
on the now-empty vector: the iteration ends in an out-of-bounds buffer
access (`tick` returns `none`), refuting the claimed bounds invariant for
the code as written. -/
theorem c1_overrun_reads_cleared_buffer :
    overrunState.video_frames ≠ [] ∧
    overrunState.loop_video = false ∧
    overrunState.video_frames.length ≤ overrunState.current_buffered_frame ∧
    tick mediaNone overrunState = none := by
  refine ⟨by decide, rfl, by decide, ?_⟩
  decide

/-! ## C5: the raw-image push handler holds both locks at once -/

/-- C5.  The raw-image push handler holds the image and the video mutex
simultaneously (the video lock is acquired before the scoped image lock is
released), and its acquisition order (image, then video) is the reverse of
the playback iteration's order (video, then image inside `updateImage`), so
a lock-order cycle between the two contexts is possible, contrary to the
claim. -/
theorem c5_push_handler_holds_both_locks :
    existsBothHeld [] processImageLockEvents = true ∧
    firstAcquired processImageLockEvents = some LockKind.image ∧
    existsBothHeld [] videoThreadLockEvents = true ∧
    firstAcquired videoThreadLockEvents = some LockKind.video := by
  decide

/-! ## C2: an out-of-range seek overwrites a stored pending seek -/

/-- C2 counterexample.  With a valid pending seek fraction 1/2 stored,
receiving the out-of-range fraction -2 changes the stored pending position
to -2, and the next playback tick no longer consumes the earlier valid
fraction: the original state would seek to frame 2 (read position 3 after
the read), while after the out-of-range command the tick just reads the next
sequential frame (position 1) and leaves -2 stored. -/
theorem c2_out_of_range_seek_overwrites :
    (processVideoSeek pendingSeekState (-2)).video_seek_position = -2 ∧
    pendingSeekState.video_seek_position = mkRat 1 2 ∧
    ((-2 : ℚ) ≠ mkRat 1 2) ∧
    ((tick mediaNone pendingSeekState).map fun s => s.cap.pos) = some 3 ∧
    ((tick mediaNone (processVideoSeek pendingSeekState (-2))).map
        fun s => (s.cap.pos, s.video_seek_position)) = some (1, -2) := by
  refine ⟨rfl, rfl, by decide, ?_, by decide⟩
  have h1 : tick mediaNone pendingSeekState =
      some (tickStream mediaNone pendingSeekState) := rfl
  have hseek : 0 ≤ pendingSeekState.video_seek_position ∧
      pendingSeekState.video_seek_position ≤ 1 := by decide
  have hIdx : (⌊(pendingSeekState.cap.frames.length : ℚ) *
      pendingSeekState.video_seek_position⌋).toNat = 2 := by
    show (⌊((4 : ℕ) : ℚ) * mkRat 1 2⌋).toNat = 2
    rw [Rat.mkRat_eq_div]
    norm_num
    decide
  rw [h1]
  unfold tickStream
  rw [if_pos hseek]
  simp only [hIdx]
  decide

/-! ## C3: streaming frames reach the shared slot without resizing -/

/-- C3 counterexample.  On a 2x2 display configuration, a streaming tick
that reads a 4x4 source frame writes a 4x4 (BGRA-converted) frame into the
shared slot: the slot frame does not have the configured display dimensions
(resizing only happens later, in `VideoVisual::render`). -/
theorem c3_slot_frame_keeps_source_size :
    mismatchState.height = 2 ∧
    mismatchState.width = 2 ∧
    ((tick mediaNone mismatchState).map
        fun s => s.image.map fun m => (m.rows, m.cols)) = some (some (4, 4)) := by
  refine ⟨rfl, rfl, by decide⟩

/-! ## C4: the buffered seek truncates instead of rounding -/

/-- C4 counterexample.  Consuming a pending seek with fraction 1/2 over a
4-frame buffer reads buffered frame 1 and leaves the cursor at 2 (the C++
assigns `(4 - 1) * 0.5 = 1.5` to the integer cursor, truncating to 1 and
post-incrementing), whereas the claimed formula `round((4 - 1) * 0.5) = 2`
would read frame 2 and leave the cursor at 3. -/
theorem c4_seek_truncates_not_rounds :
    ((tick mediaNone seekHalfState).map
        fun s => (s.current_buffered_frame, s.video_seek_position, s.image)) =
      some (2, -1, some (cvtColorBGR2BGRA testMat1)) ∧
    round (((4 : ℚ) - 1) * seekHalfState.video_seek_position) = 2 ∧
    cvtColorBGR2BGRA testMat1 ≠ cvtColorBGR2BGRA testMat2 := by
  refine ⟨?_, ?_, by decide⟩
  · have h1 : tick mediaNone seekHalfState = tickBuffered seekHalfState := rfl
    have hseek : 0 ≤ seekHalfState.video_seek_position ∧
        seekHalfState.video_seek_position ≤ 1 := by decide
    have hIdx : (⌊((seekHalfState.video_frames.length - 1 : ℕ) : ℚ) *
        seekHalfState.video_seek_position⌋).toNat = 1 := by
      show (⌊((3 : ℕ) : ℚ) * mkRat 1 2⌋).toNat = 1
      rw [Rat.mkRat_eq_div]
      norm_num
    rw [h1]
    unfold tickBuffered
    rw [if_pos hseek]
    simp only [hIdx]
    decide
  · show round (((4 : ℚ) - 1) * mkRat 1 2) = 2
    rw [Rat.mkRat_eq_div]
    norm_num [round_eq]

/-! ## C9: a paused tick can clear the displayed frame -/

/-- C9 counterexample.  Paused in buffering mode with looping disabled and
the cursor just past the end of the buffer, the displayed texture before any
tick differs from the texture after one tick and one sample: the tick stops
playback and clears the display to the zero frame even though playback was
paused and no seek was issued. -/
theorem c9_paused_tick_clears_display :
    ((runCmds mediaNone imagesNone [Cmd.sample] pausedOverrunState).map
        fun s => s.texture) =
      some { rows := 1, cols := 1, channels := 4, data := [10, 20, 30, 255] } ∧
    ((runCmds mediaNone imagesNone [Cmd.sample, Cmd.tick, Cmd.sample]
        pausedOverrunState).map fun s => s.texture) =
      some { rows := 1, cols := 1, channels := 4, data := [0, 0, 0, 0] } ∧
    ({ rows := 1, cols := 1, channels := 4, data := [10, 20, 30, 255] } : Mat) ≠
      { rows := 1, cols := 1, channels := 4, data := [0, 0, 0, 0] } := by
  refine ⟨by decide, by decide, by decide⟩

/-! ## Basic lemmas about the slot writers and the sampler -/

@[simp] theorem updateImage_stop_video (s : PluginState) (m : Mat) :
    (updateImage s m).stop_video = s.stop_video := rfl

@[simp] theorem updateImage_video_seek (s : PluginState) (m : Mat) :
    (updateImage s m).video_seek_position = s.video_seek_position := rfl

@[simp] theorem updateImage_video_paused (s : PluginState) (m : Mat) :
    (updateImage s m).video_paused = s.video_paused := rfl

@[simp] theorem updateImage_loop_video (s : PluginState) (m : Mat) :
    (updateImage s m).loop_video = s.loop_video := rfl

@[simp] theorem updateImage_buffer_all (s : PluginState) (m : Mat) :
    (updateImage s m).buffer_all_frames_for_fast_seek =
      s.buffer_all_frames_for_fast_seek := rfl

@[simp] theorem updateImage_cursor (s : PluginState) (m : Mat) :
    (updateImage s m).current_buffered_frame = s.current_buffered_frame := rfl

@[simp] theorem updateImage_video_frames (s : PluginState) (m : Mat) :
    (updateImage s m).video_frames = s.video_frames := rfl

@[simp] theorem updateImage_new_video (s : PluginState) (m : Mat) :
    (updateImage s m).new_video_available = s.new_video_available := rfl

@[simp] theorem updateImage_cap (s : PluginState) (m : Mat) :
    (updateImage s m).cap = s.cap := rfl

@[simp] theorem updateImage_texture (s : PluginState) (m : Mat) :
    (updateImage s m).texture = s.texture := rfl

@[simp] theorem updateImage_height (s : PluginState) (m : Mat) :
    (updateImage s m).height = s.height := rfl

@[simp] theorem updateImage_width (s : PluginState) (m : Mat) :
    (updateImage s m).width = s.width := rfl

@[simp] theorem updateImage_video_path (s : PluginState) (m : Mat) :
    (updateImage s m).video_path = s.video_path := rfl

@[simp] theorem updateImage_new_image (s : PluginState) (m : Mat) :
    (updateImage s m).new_image_available = true := rfl

theorem updateImage_image (s : PluginState) (m : Mat) :
    (updateImage s m).image =
      some (if m.isEmpty then Mat.zeros s.height s.width else cvtColorBGR2BGRA m) := by
  unfold updateImage
  split <;> simp_all

@[simp] theorem clearImage_image (s : PluginState) :
    (clearImage s).image = some (Mat.zeros s.height s.width) := by
  unfold clearImage
  rw [updateImage_image]
  rfl

/-- Ticking a stopped state is a no-op: the whole loop body is skipped. -/
theorem tick_stopped (media : String → Option (List Mat)) (s : PluginState)
    (h : s.stop_video = true) : tick media s = some s := by
  unfold tick
  rw [h]
  rfl

/-- Sampling with a clean slot leaves the state unchanged. -/
theorem sample_not_dirty (s : PluginState) (h : s.new_image_available = false) :
    sample s = some s := by
  unfold sample
  rw [h]
  simp only [Bool.false_eq_true, if_false, Option.some.injEq]
  cases s
  simp_all

/-- Sampling only writes the texture and clears the dirty flag. -/
theorem sample_video_fields (s s' : PluginState) (h : sample s = some s') :
    s'.stop_video = s.stop_video ∧
    s'.video_seek_position = s.video_seek_position ∧
    s'.video_paused = s.video_paused ∧
    s'.image = s.image ∧
    s'.video_frames = s.video_frames ∧
    s'.current_buffered_frame = s.current_buffered_frame ∧
    s'.cap = s.cap ∧
    s'.new_video_available = s.new_video_available ∧
    s'.new_image_available = false := by
  unfold sample at h
  split at h
  · split at h
    · cases h
      simp_all
    · cases h
  · cases h
    simp_all

/-! ## How one tick treats the stored seek position -/

theorem tickSourceOpen_fields (media : String → Option (List Mat))
    (s : PluginState) :
    (tickSourceOpen media s).video_seek_position = s.video_seek_position ∧
    (tickSourceOpen media s).stop_video = s.stop_video ∧
    (tickSourceOpen media s).video_paused = s.video_paused ∧
    (tickSourceOpen media s).loop_video = s.loop_video ∧
    (tickSourceOpen media s).buffer_all_frames_for_fast_seek =
      s.buffer_all_frames_for_fast_seek ∧
    (tickSourceOpen media s).video_path = s.video_path ∧
    (tickSourceOpen media s).height = s.height ∧
    (tickSourceOpen media s).width = s.width ∧
    (tickSourceOpen media s).new_video_available = false := by
  unfold tickSourceOpen tickSourceBuffer
  split
  · split <;> simp [clearImage]
  · simp [clearImage]

theorem tickStreamFallback_fields (media : String → Option (List Mat))
    (s : PluginState) :
    (tickStreamFallback media s).video_seek_position = s.video_seek_position ∧
    (tickStreamFallback media s).video_paused = s.video_paused ∧
    (tickStreamFallback media s).video_frames = s.video_frames ∧
    (tickStreamFallback media s).current_buffered_frame =
      s.current_buffered_frame := by
  unfold tickStreamFallback
  split <;> simp [clearImage]

theorem tickStreamDeliver_seek (media : String → Option (List Mat))
    (s : PluginState) (r : Option Mat) :
    (tickStreamDeliver media s r).video_seek_position =
      s.video_seek_position := by
  cases r with
  | none => exact (tickStreamFallback_fields media s).1
  | some f =>
    unfold tickStreamDeliver
    dsimp only
    by_cases hf : f.isEmpty = true
    · rw [if_pos hf]
      exact (tickStreamFallback_fields media s).1
    · rw [if_neg hf]
      simp

theorem tickStreamRead_seek (media : String → Option (List Mat))
    (s : PluginState) (b : Bool) :
    (tickStreamRead media s b).video_seek_position = s.video_seek_position := by
  unfold tickStreamRead
  split
  · rw [tickStreamDeliver_seek]
  · rfl

/-- The streaming branch clears an in-range pending seek. -/
theorem tickStream_consumes_seek (media : String → Option (List Mat))
    (s : PluginState) (h0 : 0 ≤ s.video_seek_position)
    (h1 : s.video_seek_position ≤ 1) :
    (tickStream media s).video_seek_position = -1 := by
  unfold tickStream
  rw [if_pos ⟨h0, h1⟩, tickStreamRead_seek]

/-- The streaming branch leaves an out-of-range pending seek untouched. -/
theorem tickStream_keeps_invalid_seek (media : String → Option (List Mat))
    (s : PluginState)
    (hseek : ¬(0 ≤ s.video_seek_position ∧ s.video_seek_position ≤ 1)) :
    (tickStream media s).video_seek_position = s.video_seek_position := by
  unfold tickStream
  rw [if_neg hseek, tickStreamRead_seek]

theorem tickBufferedRead_seek (s : PluginState) (b : Bool) (s' : PluginState)
    (h : tickBufferedRead s b = some s') :
    s'.video_seek_position = s.video_seek_position := by
  unfold tickBufferedRead at h
  split at h
  · split at h
    · injection h with h
      subst h
      simp
    · cases h
  · injection h with h
    subst h
    rfl

theorem tickBufferedStep_seek (s : PluginState) (b : Bool) (s' : PluginState)
    (h : tickBufferedStep s b = some s') :
    s'.video_seek_position = s.video_seek_position := by
  unfold tickBufferedStep at h
  split at h
  · split at h
    · rw [tickBufferedRead_seek _ _ _ h]
    · rw [tickBufferedRead_seek _ _ _ h]
      simp [clearImage]
  · exact tickBufferedRead_seek _ _ _ h

/-- The buffered branch leaves an out-of-range pending seek untouched. -/
theorem tickBuffered_keeps_invalid_seek (s s' : PluginState)
    (hseek : ¬(0 ≤ s.video_seek_position ∧ s.video_seek_position ≤ 1))
    (h : tickBuffered s = some s') :
    s'.video_seek_position = s.video_seek_position := by
  unfold tickBuffered at h
  rw [if_neg hseek] at h
  exact tickBufferedStep_seek _ _ _ h

theorem tickPlay_keeps_invalid_seek (media : String → Option (List Mat))
    (t s' : PluginState)
    (hseek : ¬(0 ≤ t.video_seek_position ∧ t.video_seek_position ≤ 1))
    (h : tickPlay media t = some s') :
    s'.video_seek_position = t.video_seek_position := by
  unfold tickPlay at h
  split at h
  · exact tickBuffered_keeps_invalid_seek _ _ hseek h
  · split at h
    · injection h with h
      subst h
      exact tickStream_keeps_invalid_seek _ _ hseek
    · injection h with h
      subst h
      rfl

/-- A full tick leaves an out-of-range pending seek untouched. -/
theorem tick_keeps_invalid_seek (media : String → Option (List Mat))
    (s s' : PluginState)
    (hseek : ¬(0 ≤ s.video_seek_position ∧ s.video_seek_position ≤ 1))
    (h : tick media s = some s') :
    s'.video_seek_position = s.video_seek_position := by
  unfold tick at h
  split at h
  · injection h with h
    subst h
    rfl
  · split at h
    · have hs := tickPlay_keeps_invalid_seek media _ _
        (by rw [(tickSourceOpen_fields media s).1]; exact hseek) h
      rw [hs, (tickSourceOpen_fields media s).1]
    · exact tickPlay_keeps_invalid_seek media _ _ hseek h

/-! ## C2 (amended): out-of-range seeks are stored but never consumed -/

/-- C2 (amended).  `processVideoSeek` stores any received fraction
unconditionally.  An out-of-range fraction is never consumed by a playback
tick: every tick leaves it stored, so subsequent ticks perform no seek.  In
particular the out-of-range fraction has overwritten (cancelled) whatever
pending seek was stored before. -/
theorem c2_invalid_seek_never_consumed (media : String → Option (List Mat))
    (s s' : PluginState) (f : ℚ)
    (hf : ¬(0 ≤ f ∧ f ≤ 1))
    (htick : tick media (processVideoSeek s f) = some s') :
    (processVideoSeek s f).video_seek_position = f ∧
    s'.video_seek_position = f := by
  refine ⟨rfl, ?_⟩
  exact tick_keeps_invalid_seek media _ _ hf htick

/-- The state produced by one playback tick after the out-of-range seek -2
arrives in `pendingSeekState`: no seek is performed, the next sequential
frame (frame 0) is read, and -2 stays stored. -/
def pendingSeekInvalidAfter : PluginState :=
  { video_path := "v", stop_video := false, video_paused := false,
    loop_video := true, video_seek_position := -2,
    buffer_all_frames_for_fast_seek := false, current_buffered_frame := 0,
    video_frames := [], new_video_available := false,
    cap := { opened := true, frames := [testMat0, testMat1, testMat2, testMat3],
             pos := 1 },
    image := some (cvtColorBGR2BGRA testMat0), new_image_available := true,
    texture := Mat.zeros 1 1, height := 1, width := 1 }

/-- Witness for C2 (amended) at the fraction -2. -/
theorem c2_invalid_seek_never_consumed_witness :
    (processVideoSeek pendingSeekState (-2)).video_seek_position = -2 ∧
    pendingSeekInvalidAfter.video_seek_position = -2 :=
  c2_invalid_seek_never_consumed mediaNone pendingSeekState
    pendingSeekInvalidAfter (-2) (by decide) (by decide)

/-! ## C4 (amended): the buffered seek sets the cursor to the floor -/

/-- The truncated seek product is a valid index of a non-empty buffer. -/
theorem floor_seek_idx_lt (n : ℕ) (q : ℚ) (hn : n ≠ 0)
    (h1 : q ≤ 1) : (⌊((n - 1 : ℕ) : ℚ) * q⌋).toNat < n := by
  have hle : ((n - 1 : ℕ) : ℚ) * q ≤ ((n - 1 : ℕ) : ℚ) :=
    mul_le_of_le_one_right (by positivity) h1
  have hfl : ⌊((n - 1 : ℕ) : ℚ) * q⌋ ≤ ((n - 1 : ℕ) : ℤ) := by
    calc ⌊((n - 1 : ℕ) : ℚ) * q⌋ ≤ ⌊((n - 1 : ℕ) : ℚ)⌋ := Int.floor_le_floor hle
    _ = ((n - 1 : ℕ) : ℤ) := Int.floor_natCast _
  have htn : (⌊((n - 1 : ℕ) : ℚ) * q⌋).toNat ≤ n - 1 := by
    rw [Int.toNat_le]
    exact_mod_cast hfl
  omega

/-- Consuming an in-range pending seek in the buffered branch: the cursor is
set to the truncated product and then post-incremented by the frame read,
and the pending seek is cleared. -/
theorem tickBuffered_consumes (s : PluginState)
    (hne : s.video_frames ≠ [])
    (h0 : 0 ≤ s.video_seek_position) (h1 : s.video_seek_position ≤ 1) :
    ∃ s', tickBuffered s = some s' ∧
      s'.current_buffered_frame =
        (⌊((s.video_frames.length - 1 : ℕ) : ℚ) * s.video_seek_position⌋).toNat
          + 1 ∧
      s'.video_seek_position = -1 := by
  have hidx : (⌊((s.video_frames.length - 1 : ℕ) : ℚ) *
      s.video_seek_position⌋).toNat < s.video_frames.length :=
    floor_seek_idx_lt _ _ (by simpa using hne) h1
  unfold tickBuffered
  rw [if_pos ⟨h0, h1⟩]
  unfold tickBufferedStep
  rw [if_neg (by simpa using Nat.not_le.mpr hidx)]
  unfold tickBufferedRead
  rw [if_pos (by simp)]
  obtain ⟨fr, hfr⟩ : ∃ fr,
      s.video_frames[(⌊((s.video_frames.length - 1 : ℕ) : ℚ) *
        s.video_seek_position⌋).toNat]? = some fr :=
    ⟨_, List.getElem?_eq_getElem hidx⟩
  simp only [hfr]
  exact ⟨_, rfl, by simp, by simp⟩

/-- C4 (amended).  In buffering mode, consuming a pending seek with an
in-range fraction sets the buffer cursor to the floor of
`(buffer_length - 1) * fraction` (the C++ double-to-unsigned conversion
truncates the nonnegative product toward zero), reads that buffered frame
(post-incrementing the cursor) and clears the pending seek. -/
theorem c4_seek_sets_cursor_floor (media : String → Option (List Mat))
    (s : PluginState)
    (hstop : s.stop_video = false) (hnv : s.new_video_available = false)
    (hbuf : s.buffer_all_frames_for_fast_seek = true)
    (hne : s.video_frames ≠ [])
    (h0 : 0 ≤ s.video_seek_position) (h1 : s.video_seek_position ≤ 1) :
    ∃ s', tick media s = some s' ∧
      s'.current_buffered_frame =
        (⌊((s.video_frames.length - 1 : ℕ) : ℚ) * s.video_seek_position⌋).toNat
          + 1 ∧
      s'.video_seek_position = -1 := by
  obtain ⟨s', hs', h2, h3⟩ := tickBuffered_consumes s hne h0 h1
  refine ⟨s', ?_, h2, h3⟩
  unfold tick
  rw [if_neg (by simp [hstop]), if_neg (by simp [hnv])]
  unfold tickPlay
  rw [if_pos (by simp [hbuf, hne])]
  exact hs'

/-- Witness for C4 (amended): fraction 1/2 over the 4-frame buffer. -/
theorem c4_seek_sets_cursor_floor_witness :
    ∃ s', tick mediaNone seekHalfState = some s' ∧
      s'.current_buffered_frame =
        (⌊((seekHalfState.video_frames.length - 1 : ℕ) : ℚ) *
          seekHalfState.video_seek_position⌋).toNat + 1 ∧
      s'.video_seek_position = -1 :=
  c4_seek_sets_cursor_floor mediaNone seekHalfState rfl rfl rfl (by decide)
    (by decide) (by decide)

/-! ## Stop-flag preservation -/

theorem processVideoPath_empty (s : PluginState) :
    (processVideoPath s "").stop_video = true ∧
    (processVideoPath s "").image = some (Mat.zeros s.height s.width) ∧
    (processVideoPath s "").new_video_available = false := by
  unfold processVideoPath
  simp only []
  rw [if_pos (show "".isEmpty = true from rfl)]
  simp [clearImage, updateImage_image, Mat.emptyMat, Mat.isEmpty]

/-- No command other than setting a non-empty video path can drop the stop
flag. -/
theorem stepCmd_keeps_stop (media : String → Option (List Mat))
    (images : String → Mat) (c : Cmd) (s s' : PluginState)
    (hstop : s.stop_video = true) (hc : keepsVideoStopped c = true)
    (h : stepCmd media images c s = some s') : s'.stop_video = true := by
  cases c with
  | tick =>
    rw [stepCmd, tick_stopped media s hstop] at h
    injection h with h
    subst h
    exact hstop
  | sample =>
    rw [(sample_video_fields s s' h).1]
    exact hstop
  | seek f =>
    injection h with h
    subst h
    exact hstop
  | pause b =>
    injection h with h
    subst h
    simp [processVideoPause, hstop]
  | videoPath p =>
    have hp : p = "" := by
      have := hc
      unfold keepsVideoStopped at this
      exact eq_of_beq this
    subst hp
    injection h with h
    subst h
    exact (processVideoPath_empty s).1
  | imagePath p =>
    injection h with h
    subst h
    rfl
  | imagePush m =>
    injection h with h
    subst h
    rfl

/-- Over any command sequence that never sets a non-empty video path, a
stopped plugin stays stopped. -/
theorem runCmds_keeps_stop (media : String → Option (List Mat))
    (images : String → Mat) (cmds : List Cmd) (s s' : PluginState)
    (hstop : s.stop_video = true) (hc : cmds.all keepsVideoStopped = true)
    (h : runCmds media images cmds s = some s') : s'.stop_video = true := by
  induction cmds generalizing s with
  | nil =>
    unfold runCmds at h
    injection h with h
    subst h
    exact hstop
  | cons c rest ih =>
    rw [List.all_cons, Bool.and_eq_true] at hc
    cases hsc : stepCmd media images c s with
    | none =>
      unfold runCmds at h
      rw [hsc] at h
      cases h
    | some s1 =>
      unfold runCmds at h
      rw [hsc] at h
      exact ih s1 (stepCmd_keeps_stop media images c s s1 hstop hc.1 hsc) hc.2 h

/-! ## C6: an empty video path stops playback and clears the display -/

/-- C6.  Setting the video path to the empty string (from any state) sets
the stop flag and writes the all-zero frame of the configured dimensions
into the shared slot; every tick of a stopped state is a no-op, and over any
subsequent command sequence that does not set a non-empty video path the
plugin stays stopped. -/
theorem c6_empty_path_stops_and_clears (media : String → Option (List Mat))
    (images : String → Mat) (s s'' : PluginState) (cmds : List Cmd)
    (hc : cmds.all keepsVideoStopped = true)
    (hrun : runCmds media images cmds (processVideoPath s "") = some s'') :
    (processVideoPath s "").stop_video = true ∧
    (processVideoPath s "").image = some (Mat.zeros s.height s.width) ∧
    (∀ t : PluginState, t.stop_video = true → tick media t = some t) ∧
    s''.stop_video = true := by
  refine ⟨(processVideoPath_empty s).1, (processVideoPath_empty s).2.1,
    fun t ht => tick_stopped media t ht, ?_⟩
  exact runCmds_keeps_stop media images cmds _ s''
    (processVideoPath_empty s).1 hc hrun

/-- The state after clearing the video path of `pausedOverrunState` and
running a tick, an (ignored) pause command, a render sample and another
tick. -/
def emptyPathRunAfter : PluginState :=
  { video_path := "", stop_video := true, video_paused := true,
    loop_video := false, video_seek_position := -1,
    buffer_all_frames_for_fast_seek := true, current_buffered_frame := 1,
    video_frames := [testMat0], new_video_available := false,
    cap := { opened := true, frames := [testMat0], pos := 1 },
    image := some (Mat.zeros 1 1), new_image_available := false,
    texture := Mat.zeros 1 1, height := 1, width := 1 }

/-- Witness for C6 on a concrete state and command sequence. -/
theorem c6_empty_path_stops_and_clears_witness :
    (processVideoPath pausedOverrunState "").stop_video = true ∧
    (processVideoPath pausedOverrunState "").image =
      some (Mat.zeros pausedOverrunState.height pausedOverrunState.width) ∧
    (∀ t : PluginState, t.stop_video = true → tick mediaNone t = some t) ∧
    emptyPathRunAfter.stop_video = true :=
  c6_empty_path_stops_and_clears mediaNone imagesNone pausedOverrunState
    emptyPathRunAfter [Cmd.tick, Cmd.pause false, Cmd.sample, Cmd.tick]
    (by decide) (by decide)

/-! ## C8: a raw-image push halts video playback -/

/-- C8.  Pushing a raw image while a video is playing sets the stop flag
immediately, so the very next playback tick is a no-op (the loop observes
the flag within one tick and performs no video advancement); the pushed
image (converted to BGRA) is the frame delivered to the texture by the next
render sample; and over any subsequent command sequence that does not set a
non-empty video path the plugin stays stopped. -/
theorem c8_raw_push_halts_video (media : String → Option (List Mat))
    (images : String → Mat) (s s'' : PluginState) (m : Mat) (cmds : List Cmd)
    (_hplay : s.stop_video = false)
    (hc : cmds.all keepsVideoStopped = true)
    (hrun : runCmds media images cmds (processImage s m) = some s'') :
    (processImage s m).stop_video = true ∧
    tick media (processImage s m) = some (processImage s m) ∧
    sample (processImage s m) =
      some { processImage s m with
              texture := renderTexture s.height s.width (toCvCopyBGRA m),
              new_image_available := false } ∧
    s''.stop_video = true := by
  have hst : (processImage s m).stop_video = true := rfl
  refine ⟨hst, tick_stopped media _ hst, rfl, ?_⟩
  exact runCmds_keeps_stop media images cmds _ s'' hst hc hrun

/-- The state after pushing the raw frame `testMat3` into
`pendingSeekState` and running one tick and one render sample. -/
def rawPushRunAfter : PluginState :=
  { video_path := "v", stop_video := true, video_paused := false,
    loop_video := true, video_seek_position := mkRat 1 2,
    buffer_all_frames_for_fast_seek := false, current_buffered_frame := 0,
    video_frames := [], new_video_available := false,
    cap := { opened := true, frames := [testMat0, testMat1, testMat2, testMat3],
             pos := 0 },
    image := some (cvtColorBGR2BGRA testMat3), new_image_available := false,
    texture := cvtColorBGR2BGRA testMat3, height := 1, width := 1 }

/-- Witness for C8 on a concrete playing state and pushed frame. -/
theorem c8_raw_push_halts_video_witness :
    (processImage pendingSeekState testMat3).stop_video = true ∧
    tick mediaNone (processImage pendingSeekState testMat3) =
      some (processImage pendingSeekState testMat3) ∧
    sample (processImage pendingSeekState testMat3) =
      some { processImage pendingSeekState testMat3 with
              texture := renderTexture pendingSeekState.height
                pendingSeekState.width (toCvCopyBGRA testMat3),
              new_image_available := false } ∧
    rawPushRunAfter.stop_video = true :=
  c8_raw_push_halts_video mediaNone imagesNone pendingSeekState
    rawPushRunAfter testMat3 [Cmd.tick, Cmd.sample] rfl (by decide) (by decide)

/-! ## C7: streaming end of stream -/

/-- C7.  In streaming mode, on the tick that hits end of stream (not paused,
no pending seek, no pending source change): with looping enabled the source
is reopened from the beginning (state unchanged except the capture) and the
next tick delivers the first frame of the source; with looping disabled
playback stops, the all-zero display-sized frame is written to the shared
slot, and further ticks are no-ops until a new source is set. -/
theorem c7_stream_end_of_stream (media : String → Option (List Mat))
    (s : PluginState) (f0 : Mat) (rest : List Mat)
    (hstop : s.stop_video = false)
    (hbuf : s.buffer_all_frames_for_fast_seek = false)
    (hnv : s.new_video_available = false)
    (hpause : s.video_paused = false)
    (hseek : ¬(0 ≤ s.video_seek_position ∧ s.video_seek_position ≤ 1))
    (hopen : s.cap.opened = true)
    (heos : s.cap.frames.length ≤ s.cap.pos) :
    (s.loop_video = true →
      tick media s =
        some { s with cap := VideoCapture.openPath media s.video_path } ∧
      (media s.video_path = some (f0 :: rest) → f0.isEmpty = false →
        ∃ s'', tick media
            { s with cap := VideoCapture.openPath media s.video_path } =
              some s'' ∧
          s''.image = some (cvtColorBGR2BGRA f0) ∧
          s''.cap.pos = 1 ∧ s''.cap.frames = f0 :: rest)) ∧
    (s.loop_video = false →
      tick media s = some (clearImage { s with stop_video := true }) ∧
      (clearImage { s with stop_video := true }).stop_video = true ∧
      (clearImage { s with stop_video := true }).image =
        some (Mat.zeros s.height s.width) ∧
      tick media (clearImage { s with stop_video := true }) =
        some (clearImage { s with stop_video := true })) := by
  have hAtick : ∀ t : PluginState, t.stop_video = false →
      t.new_video_available = false →
      t.buffer_all_frames_for_fast_seek = false → t.cap.opened = true →
      tick media t = some (tickStream media t) := by
    intro t h1 h2 h3 h4
    unfold tick
    rw [if_neg (by simp [h1]), if_neg (by simp [h2])]
    unfold tickPlay
    rw [if_neg (by simp [h3]), if_pos h4]
  have hread : s.cap.read = (none, s.cap) := by
    unfold VideoCapture.read
    rw [if_pos hopen, List.getElem?_eq_none heos]
  have hBfall : tickStream media s = tickStreamFallback media s := by
    unfold tickStream
    rw [if_neg hseek]
    unfold tickStreamRead
    rw [if_pos (by simp [hpause]), hread]
    rfl
  constructor
  · intro hloop
    have h2 : tickStreamFallback media s =
        { s with cap := VideoCapture.openPath media s.video_path } := by
      unfold tickStreamFallback
      rw [if_pos hloop]
    constructor
    · rw [hAtick s hstop hnv hbuf hopen, hBfall, h2]
    · intro hm hf0
      have hcap1 : ({ s with
          cap := VideoCapture.openPath media s.video_path } : PluginState).cap =
          { opened := true, frames := f0 :: rest, pos := 0 } := by
        show VideoCapture.openPath media s.video_path = _
        unfold VideoCapture.openPath
        rw [hm]
      have htick1 : tick media
          { s with cap := VideoCapture.openPath media s.video_path } =
          some (tickStream media
            { s with cap := VideoCapture.openPath media s.video_path }) :=
        hAtick _ hstop hnv hbuf (by rw [hcap1])
      have hread1 : ({ s with
          cap := VideoCapture.openPath media s.video_path } : PluginState).cap.read =
          (some f0, { opened := true, frames := f0 :: rest, pos := 1 }) := by
        rw [hcap1]
        simp [VideoCapture.read]
      have hseek1 : ¬(0 ≤ ({ s with
          cap := VideoCapture.openPath media s.video_path } :
            PluginState).video_seek_position ∧
          ({ s with cap := VideoCapture.openPath media s.video_path } :
            PluginState).video_seek_position ≤ 1) := hseek
      have hstream1 : tickStream media
          { s with cap := VideoCapture.openPath media s.video_path } =
          updateImage
            { s with cap := { opened := true, frames := f0 :: rest, pos := 1 } }
            f0 := by
        unfold tickStream
        rw [if_neg hseek1]
        unfold tickStreamRead
        rw [if_pos (by simp [hpause]), hread1]
        unfold tickStreamDeliver
        dsimp only
        rw [if_neg (by simp [hf0])]
      refine ⟨_, by rw [htick1, hstream1], ?_, ?_, ?_⟩
      · rw [updateImage_image, if_neg (by simp [hf0])]
      · rw [updateImage_cap]
      · rw [updateImage_cap]
  · intro hloop
    have h2 : tickStreamFallback media s =
        clearImage { s with stop_video := true } := by
      unfold tickStreamFallback
      rw [if_neg (by simp [hloop])]
    have hst : (clearImage { s with stop_video := true }).stop_video = true :=
      rfl
    refine ⟨by rw [hAtick s hstop hnv hbuf hopen, hBfall, h2], hst, ?_,
      tick_stopped media _ hst⟩
    rw [clearImage_image]

/-- Streaming mode with looping enabled, at end of stream of the 4-frame
source "v". -/
def eosLoopState : PluginState :=
  { video_path := "v", stop_video := false, video_paused := false,
    loop_video := true, video_seek_position := -1,
    buffer_all_frames_for_fast_seek := false, current_buffered_frame := 0,
    video_frames := [], new_video_available := false,
    cap := { opened := true, frames := [testMat0, testMat1, testMat2, testMat3],
             pos := 4 },
    image := some (cvtColorBGR2BGRA testMat3), new_image_available := false,
    texture := cvtColorBGR2BGRA testMat3, height := 1, width := 1 }

/-- Witness for C7 at the end of stream of the looping source "v". -/
theorem c7_stream_end_of_stream_witness :
    (eosLoopState.loop_video = true →
      tick mediaFour eosLoopState =
        some { eosLoopState with
                cap := VideoCapture.openPath mediaFour eosLoopState.video_path } ∧
      (mediaFour eosLoopState.video_path =
          some (testMat0 :: [testMat1, testMat2, testMat3]) →
        testMat0.isEmpty = false →
        ∃ s'', tick mediaFour
            { eosLoopState with
                cap := VideoCapture.openPath mediaFour eosLoopState.video_path } =
              some s'' ∧
          s''.image = some (cvtColorBGR2BGRA testMat0) ∧
          s''.cap.pos = 1 ∧
          s''.cap.frames = testMat0 :: [testMat1, testMat2, testMat3])) ∧
    (eosLoopState.loop_video = false →
      tick mediaFour eosLoopState =
        some (clearImage { eosLoopState with stop_video := true }) ∧
      (clearImage { eosLoopState with stop_video := true }).stop_video = true ∧
      (clearImage { eosLoopState with stop_video := true }).image =
        some (Mat.zeros eosLoopState.height eosLoopState.width) ∧
      tick mediaFour (clearImage { eosLoopState with stop_video := true }) =
        some (clearImage { eosLoopState with stop_video := true })) :=
  c7_stream_end_of_stream mediaFour eosLoopState testMat0
    [testMat1, testMat2, testMat3] rfl rfl rfl rfl (by decide) rfl (by decide)

/-! ## C9 (amended): display stability while paused -/

/-- Steady paused playback: paused, slot already sampled, no pending source
change, no in-range pending seek, and not in the lethal buffered-overrun
configuration (buffering on, looping off, cursor past the end of a non-empty
buffer) in which a tick clears the display. -/
def pausedSteady (s : PluginState) : Prop :=
  s.video_paused = true ∧ s.new_image_available = false ∧
  s.new_video_available = false ∧
  ¬(0 ≤ s.video_seek_position ∧ s.video_seek_position ≤ 1) ∧
  (s.buffer_all_frames_for_fast_seek = false ∨ s.loop_video = true ∨
    s.current_buffered_frame < s.video_frames.length ∨ s.video_frames = [])

instance pausedSteadyDecidable (s : PluginState) : Decidable (pausedSteady s) := by
  unfold pausedSteady
  infer_instance

/-- One tick in steady paused playback keeps the shared image, the texture
and the steady-paused configuration (at most the buffer cursor wraps). -/
theorem tick_pausedSteady (media : String → Option (List Mat))
    (s : PluginState) (h : pausedSteady s) :
    ∃ s', tick media s = some s' ∧ s'.image = s.image ∧
      s'.texture = s.texture ∧ pausedSteady s' := by
  obtain ⟨hp, hni, hnv, hsk, hover⟩ := h
  by_cases hstop : s.stop_video = true
  · exact ⟨s, tick_stopped media s hstop, rfl, rfl, hp, hni, hnv, hsk, hover⟩
  · have htick : tick media s = tickPlay media s := by
      unfold tick
      rw [if_neg hstop, if_neg (by simp [hnv])]
    rw [htick]
    unfold tickPlay
    by_cases hb : (s.buffer_all_frames_for_fast_seek &&
        !s.video_frames.isEmpty) = true
    · rw [if_pos hb]
      rw [Bool.and_eq_true] at hb
      have hbt := hb.1
      have hne : s.video_frames ≠ [] := by simpa using hb.2
      unfold tickBuffered
      rw [if_neg hsk]
      unfold tickBufferedStep
      by_cases hcur : s.video_frames.length ≤ s.current_buffered_frame
      · have hloop : s.loop_video = true := by
          rcases hover with h | h | h | h
          · rw [hbt] at h
            cases h
          · exact h
          · omega
          · exact absurd h hne
        rw [if_pos hcur, if_pos hloop]
        unfold tickBufferedRead
        rw [if_neg (by simp [hp])]
        exact ⟨_, rfl, rfl, rfl, hp, hni, hnv, hsk, Or.inr (Or.inl hloop)⟩
      · rw [if_neg hcur]
        unfold tickBufferedRead
        rw [if_neg (by simp [hp])]
        exact ⟨s, rfl, rfl, rfl, hp, hni, hnv, hsk, hover⟩
    · rw [if_neg hb]
      by_cases hc : s.cap.opened = true
      · rw [if_pos hc]
        have hts : tickStream media s = s := by
          unfold tickStream
          rw [if_neg hsk]
          unfold tickStreamRead
          rw [if_neg (by simp [hp])]
        rw [hts]
        exact ⟨s, rfl, rfl, rfl, hp, hni, hnv, hsk, hover⟩
      · rw [if_neg hc]
        exact ⟨s, rfl, rfl, rfl, hp, hni, hnv, hsk, hover⟩

/-- Any sequence of ticks and render samples in steady paused playback keeps
the shared image and the texture. -/
theorem runTickSample_pausedSteady (media : String → Option (List Mat))
    (images : String → Mat) (cmds : List Cmd) (s s' : PluginState)
    (hts : cmds.all isTickOrSample = true) (h : pausedSteady s)
    (hrun : runCmds media images cmds s = some s') :
    s'.image = s.image ∧ s'.texture = s.texture ∧ pausedSteady s' := by
  induction cmds generalizing s with
  | nil =>
    unfold runCmds at hrun
    injection hrun with hrun
    subst hrun
    exact ⟨rfl, rfl, h⟩
  | cons c rest ih =>
    rw [List.all_cons, Bool.and_eq_true] at hts
    cases c with
    | tick =>
      obtain ⟨s1, h1, himg, htex, hps⟩ := tick_pausedSteady media s h
      rw [show runCmds media images (Cmd.tick :: rest) s =
          runCmds media images rest s1 by
        show (match stepCmd media images Cmd.tick s with
          | some t => runCmds media images rest t
          | none => none) = runCmds media images rest s1
        rw [show stepCmd media images Cmd.tick s = some s1 from h1]] at hrun
      obtain ⟨i2, t2, p2⟩ := ih s1 hts.2 hps hrun
      exact ⟨i2.trans himg, t2.trans htex, p2⟩
    | sample =>
      have h1 : sample s = some s := sample_not_dirty s h.2.1
      rw [show runCmds media images (Cmd.sample :: rest) s =
          runCmds media images rest s by
        show (match stepCmd media images Cmd.sample s with
          | some t => runCmds media images rest t
          | none => none) = runCmds media images rest s
        rw [show stepCmd media images Cmd.sample s = some s from h1]] at hrun
      exact ih s hts.2 h hrun
    | seek f => cases hts.1
    | pause b => cases hts.1
    | videoPath p => cases hts.1
    | imagePath p => cases hts.1
    | imagePush m => cases hts.1

/-- C9 (amended).  While playback is paused in a steady configuration (no
pending seek or source change, and not at a buffered overrun with looping
disabled), every sequence of playback ticks and render samples leaves the
shared image and the displayed texture unchanged. -/
theorem c9_paused_display_stable (media : String → Option (List Mat))
    (images : String → Mat) (cmds : List Cmd) (s s' : PluginState)
    (h : pausedSteady s) (hts : cmds.all isTickOrSample = true)
    (hrun : runCmds media images cmds s = some s') :
    s'.image = s.image ∧ s'.texture = s.texture := by
  obtain ⟨h1, h2, _⟩ := runTickSample_pausedSteady media images cmds s s' hts h hrun
  exact ⟨h1, h2⟩

/-- A steady paused streaming state. -/
def pausedSteadyState : PluginState :=
  { video_path := "v", stop_video := false, video_paused := true,
    loop_video := true, video_seek_position := -1,
    buffer_all_frames_for_fast_seek := false, current_buffered_frame := 0,
    video_frames := [], new_video_available := false,
    cap := { opened := true, frames := [testMat0, testMat1], pos := 1 },
    image := some (cvtColorBGR2BGRA testMat0), new_image_available := false,
    texture := cvtColorBGR2BGRA testMat0, height := 1, width := 1 }

/-- Witness for C9 (amended): two ticks and a sample while steadily
paused. -/
theorem c9_paused_display_stable_witness :
    pausedSteadyState.image = pausedSteadyState.image ∧
    pausedSteadyState.texture = pausedSteadyState.texture :=
  c9_paused_display_stable mediaNone imagesNone
    [Cmd.tick, Cmd.sample, Cmd.tick] pausedSteadyState pausedSteadyState
    (by decide) (by decide) (by decide)

/-! ## C10: stopped ticks are no-ops and a stored seek survives them -/

theorem processVideoPath_nonempty (s : PluginState) (p : String)
    (hp : p.isEmpty = false) :
    processVideoPath s p =
      { s with video_path := p, stop_video := false,
               new_video_available := true } := by
  unfold processVideoPath
  dsimp only
  rw [if_neg (by simp [hp])]

theorem tickSourceOpen_opened (media : String → Option (List Mat))
    (s : PluginState) (fs : List Mat)
    (hm : media s.video_path = some fs) :
    (tickSourceOpen media s).cap.opened = true ∧
    (tickSourceOpen media s).video_frames =
      (if s.buffer_all_frames_for_fast_seek then
        preloadFrames s.width s.height fs else s.video_frames) := by
  unfold tickSourceOpen tickSourceBuffer VideoCapture.openPath
  rw [hm]
  dsimp only
  split <;> simp_all [clearImage]

/-- The first active tick after a new source is set and opened consumes an
in-range stored seek fraction, in both buffering and streaming mode. -/
theorem tick_first_active_consumes (media : String → Option (List Mat))
    (t : PluginState) (fs : List Mat)
    (hstop : t.stop_video = false) (hnv : t.new_video_available = true)
    (hpe : t.video_path.isEmpty = false)
    (hm : media t.video_path = some fs)
    (h0 : 0 ≤ t.video_seek_position) (h1 : t.video_seek_position ≤ 1) :
    ∃ s', tick media t = some s' ∧ s'.video_seek_position = -1 := by
  have htick : tick media t = tickPlay media (tickSourceOpen media t) := by
    unfold tick
    rw [if_neg (by simp [hstop]), if_pos (by simp [hnv, hpe])]
  rw [htick]
  obtain ⟨ho, _⟩ := tickSourceOpen_opened media t fs hm
  have hsk0 : 0 ≤ (tickSourceOpen media t).video_seek_position := by
    rw [(tickSourceOpen_fields media t).1]
    exact h0
  have hsk1 : (tickSourceOpen media t).video_seek_position ≤ 1 := by
    rw [(tickSourceOpen_fields media t).1]
    exact h1
  unfold tickPlay
  by_cases hb : ((tickSourceOpen media t).buffer_all_frames_for_fast_seek &&
      !(tickSourceOpen media t).video_frames.isEmpty) = true
  · rw [if_pos hb]
    rw [Bool.and_eq_true] at hb
    have hne : (tickSourceOpen media t).video_frames ≠ [] := by
      simpa using hb.2
    obtain ⟨s', hs', _, hsk⟩ := tickBuffered_consumes _ hne hsk0 hsk1
    exact ⟨s', hs', hsk⟩
  · rw [if_neg hb, if_pos ho]
    exact ⟨_, rfl, tickStream_consumes_seek media _ hsk0 hsk1⟩

/-- C10.  While the stop flag is true every playback-loop iteration is a
no-op (the state, including the shared slot, the pending seek, the paused
flag, the buffer, the cursor and the capture, is returned unchanged); a seek
fraction stored while stopped persists through such ticks, and once a new
video path is set (to an openable non-empty path) the first active tick
consumes it. -/
theorem c10_stopped_tick_noop_seek_persists
    (media : String → Option (List Mat)) (s : PluginState) (f : ℚ)
    (p : String) (fs : List Mat)
    (hstop : s.stop_video = true) (h0 : 0 ≤ f) (h1 : f ≤ 1) (hp : p ≠ "")
    (hm : media p = some fs) :
    tick media s = some s ∧
    (processVideoSeek s f).video_seek_position = f ∧
    (processVideoSeek s f).stop_video = true ∧
    tick media (processVideoSeek s f) = some (processVideoSeek s f) ∧
    (∃ s', tick media (processVideoPath (processVideoSeek s f) p) = some s' ∧
      s'.video_seek_position = -1) := by
  have hpe : p.isEmpty = false := by
    by_contra hh
    rw [Bool.not_eq_false] at hh
    exact hp ((String.isEmpty_iff p).mp hh)
  refine ⟨tick_stopped media s hstop, rfl, hstop,
    tick_stopped media _ hstop, ?_⟩
  rw [processVideoPath_nonempty _ p hpe]
  exact tick_first_active_consumes media _ fs rfl rfl hpe hm h0 h1

/-- Witness for C10: a stopped state receives the fraction 1/2 and then the
4-frame source "v". -/
theorem c10_stopped_tick_noop_seek_persists_witness :
    tick mediaFour emptyPathRunAfter = some emptyPathRunAfter ∧
    (processVideoSeek emptyPathRunAfter (mkRat 1 2)).video_seek_position =
      mkRat 1 2 ∧
    (processVideoSeek emptyPathRunAfter (mkRat 1 2)).stop_video = true ∧
    tick mediaFour (processVideoSeek emptyPathRunAfter (mkRat 1 2)) =
      some (processVideoSeek emptyPathRunAfter (mkRat 1 2)) ∧
    (∃ s', tick mediaFour
        (processVideoPath (processVideoSeek emptyPathRunAfter (mkRat 1 2))
          "v") = some s' ∧
      s'.video_seek_position = -1) :=
  c10_stopped_tick_noop_seek_persists mediaFour emptyPathRunAfter (mkRat 1 2)
    "v" [testMat0, testMat1, testMat2, testMat3] rfl (by decide) (by decide)
    (by decide) (by decide)

/-! ## C3 (amended): BGRA on write, size normalization at render time -/

/-- Every frame kept by the pre-buffering loop has the configured display
dimensions. -/
theorem preloadFrames_dims (w h : Nat) (fs : List Mat) (m : Mat)
    (hm : m ∈ preloadFrames w h fs) : m.rows = h ∧ m.cols = w := by
  induction fs with
  | nil => cases hm
  | cons f rest ih =>
    unfold preloadFrames at hm
    split at hm
    · exact ih hm
    · rcases List.mem_cons.mp hm with h1 | h1
      · subst h1
        exact ⟨rfl, rfl⟩
      · exact ih h1

/-- C3 (amended).  Every frame written into the shared slot is 4-channel
(BGRA); a non-empty frame is stored as its BGRA conversion, which keeps the
source dimensions (no resizing on the slot write); frames kept by the
pre-buffering loop are resized to the configured dimensions when buffered;
and the render-sampling step always produces a texture of the configured
display dimensions. -/
theorem c3_frames_bgra_and_render_normalizes (s t t' : PluginState)
    (img m m' : Mat) (w h : Nat) (fs : List Mat)
    (hne : img.isEmpty = false)
    (hmem : m ∈ preloadFrames w h fs)
    (hdirty : t.new_image_available = true) (hslot : t.image = some m')
    (hs : sample t = some t') :
    ((updateImage s img).image.map Mat.channels) = some 4 ∧
    (updateImage s img).image = some (cvtColorBGR2BGRA img) ∧
    (cvtColorBGR2BGRA img).rows = img.rows ∧
    (cvtColorBGR2BGRA img).cols = img.cols ∧
    m.rows = h ∧ m.cols = w ∧
    t'.texture.rows = t.height ∧ t'.texture.cols = t.width := by
  obtain ⟨hr, hc⟩ := preloadFrames_dims w h fs m hmem
  have htex : t'.texture.rows = t.height ∧ t'.texture.cols = t.width := by
    unfold sample at hs
    rw [if_pos hdirty, hslot] at hs
    injection hs with hs
    subst hs
    exact ⟨rfl, rfl⟩
  refine ⟨?_, ?_, rfl, rfl, hr, hc, htex.1, htex.2⟩
  · rw [updateImage_image]
    split <;> rfl
  · rw [updateImage_image, if_neg (by simp [hne])]

/-- The state produced by sampling right after the 4x4 frame was written
into the slot of the 2x2-configured `mismatchState`. -/
def renderSampleAfter : PluginState :=
  { updateImage mismatchState testMatLarge with
      texture := renderTexture 2 2 (cvtColorBGR2BGRA testMatLarge),
      new_image_available := false }

/-- Witness for C3 (amended) on the 4x4 frame and the 2x2 display. -/
theorem c3_frames_bgra_and_render_normalizes_witness :
    ((updateImage mismatchState testMatLarge).image.map Mat.channels) =
      some 4 ∧
    (updateImage mismatchState testMatLarge).image =
      some (cvtColorBGR2BGRA testMatLarge) ∧
    (cvtColorBGR2BGRA testMatLarge).rows = testMatLarge.rows ∧
    (cvtColorBGR2BGRA testMatLarge).cols = testMatLarge.cols ∧
    (cvResize testMatLarge 2 2).rows = 2 ∧
    (cvResize testMatLarge 2 2).cols = 2 ∧
    renderSampleAfter.texture.rows =
      (updateImage mismatchState testMatLarge).height ∧
    renderSampleAfter.texture.cols =
      (updateImage mismatchState testMatLarge).width :=
  c3_frames_bgra_and_render_normalizes mismatchState
    (updateImage mismatchState testMatLarge) renderSampleAfter testMatLarge
    (cvResize testMatLarge 2 2) (cvtColorBGR2BGRA testMatLarge) 2 2
    [testMatLarge] rfl (by decide) rfl rfl (by decide)
